import Mathlib

/-!
Verification of the Order resource decoder (`order.go`).

A shallow embedding of the `stripe` package's `order.go`: the schema
declarations and the two custom JSON decoders, `OrderItem.UnmarshalJSON`
and `Order.UnmarshalJSON`.

JSON documents are modelled by the inductive type `Json` (numbers are
integers; the decoders under study never inspect fractional values).
Go's `encoding/json` behaviour is mirrored where the decoders rely on it:

* unmarshalling writes through pointers even when it ultimately reports an
  error — in particular `indirect` allocates every nil pointer on the path
  to the target *before* the type of the JSON value is checked, so a shape
  mismatch leaves the target pointing at a freshly allocated zero value;
* a JSON `null` stores a nil pointer (without error) and is a no-op for
  non-pointer scalar and struct targets;
* unmarshalling into `map[string]*json.RawMessage` keeps the raw fragment
  of every key, and a `null` member yields a nil `*json.RawMessage`;
* a type mismatch on a plain field records the error and decoding
  continues with the remaining members, while an error returned by a
  custom `UnmarshalJSON` aborts the decode at once.

Go pointers become `Option`; dereferencing a nil pointer is modelled by
the `JRes.panic` outcome, tagged with the dereference site.
-/

/-- The JSON documents the decoders consume. Numbers are modelled as
integers (`Int`); the fields decoded by `order.go` are `int64`, strings and
booleans, so fractional numbers would only ever produce decode errors. -/
inductive Json where
  | null : Json
  | bool : Bool → Json
  | num : Int → Json
  | str : String → Json
  | arr : List Json → Json
  | obj : List (String × Json) → Json

/-- The two places where `OrderItem.UnmarshalJSON` dereferences a pointer
that could be nil: the `*json.RawMessage` for the `parent` key, and
`oi.Parent.SKU` in the `sku` branch. -/
inductive PanicSite where
  | nilRawMessage : PanicSite
  | nilSKU : PanicSite
deriving DecidableEq

/-- Outcome of a Go `UnmarshalJSON` call on a receiver: the method mutates
the receiver through its pointer, so both the `ok` and the `err` outcome
carry the receiver's final state; `panic` models a runtime nil-pointer
dereference. Error messages are not tracked. -/
inductive JRes (α : Type) where
  | ok : α → JRes α
  | err : α → JRes α
  | panic : PanicSite → JRes α

/-- Type `Currency` is a named string type in the source. -/
abbrev Currency := String

/-- Type `OrderItemType` is a named string type in the source. -/
abbrev OrderItemType := String

/-- Type `OrderItemParentType` is a named string type in the source. -/
abbrev OrderItemParentType := String

def OrderItemTypeCoupon : OrderItemType := "coupon"

def OrderItemTypeDiscount : OrderItemType := "discount"

def OrderItemTypeShipping : OrderItemType := "shipping"

def OrderItemTypeSKU : OrderItemType := "sku"

def OrderItemTypeTax : OrderItemType := "tax"

def OrderItemParentTypeCoupon : OrderItemParentType := "coupon"

def OrderItemParentTypeShipping : OrderItemParentType := "shipping"

def OrderItemParentTypeSKU : OrderItemParentType := "sku"

/-- Modelled from the spec: `ParseID` lives elsewhere in the repository
(not under `src/`). §4.1 step 1: "Attempt to interpret the payload as a
bare JSON string. If successful, set `ID` to that string." -/
def ParseID : Json → Option String
  | .str s => some s
  | _ => none

/-- Modelled from the spec: the sibling resource `SKU` is declared outside
`src/` and is out of scope; the spec uses only its `id` field
(§8: `parent: {"id": "sku_1", ...}` yields `Parent.SKU.ID == "sku_1"`). -/
structure SKU where
  ID : String := ""

/-- Modelled from the spec: the sibling resource `Charge` is out of scope;
it is an expandable reference (glossary), so only its identifier is kept. -/
structure Charge where
  ID : String := ""

/-- Modelled from the spec: the sibling resource `Customer` is out of
scope; it is an expandable reference, so only its identifier is kept. -/
structure Customer where
  ID : String := ""

/-- Modelled from the spec: `Address` is declared outside `src/` and its
schema is unspecified here; the model retains the decoded object members. -/
structure Address where
  Fields : List (String × Json) := []

/-- Modelled from the spec: `OrderReturnList` is the out-of-scope generic
list container; the model retains the raw fragments of its `data` member. -/
structure OrderReturnList where
  Data : List Json := []

/-- Model of `json.Unmarshal` of a fragment into a `string` target: a JSON string
stores the string, `null` is a no-op, anything else is a type error that
leaves the target unchanged. -/
def unmarshalString (frag : Json) (prev : String) : String × Bool :=
  match frag with
  | .str s => (s, false)
  | .null => (prev, false)
  | _ => (prev, true)

/-- Model of `json.Unmarshal` of a fragment into an `int64` target: an in-range
integer stores the value, `null` is a no-op, anything else (including an
out-of-range integer) is an error leaving the target unchanged. -/
def unmarshalInt64 (frag : Json) (prev : Int) : Int × Bool :=
  match frag with
  | .num n => if -(2 ^ 63) ≤ n ∧ n < 2 ^ 63 then (n, false) else (prev, true)
  | .null => (prev, false)
  | _ => (prev, true)

/-- Model of `json.Unmarshal` of a fragment into a `bool` target. -/
def unmarshalBool (frag : Json) (prev : Bool) : Bool × Bool :=
  match frag with
  | .bool b => (b, false)
  | .null => (prev, false)
  | _ => (prev, true)

/-- Model of `json.Unmarshal` of a fragment into a `*string` target: `null` stores
nil; a string allocates and stores; any other value allocates the pointer
(encoding/json's `indirect` allocates before the type check) and reports a
type error. -/
def unmarshalStringPtr (frag : Json) (prev : Option String) : Option String × Bool :=
  match frag with
  | .null => (none, false)
  | .str s => (some s, false)
  | _ => (some (prev.getD ""), true)

/-- Decoding the members of an object into a record whose only declared
field is the string `id`: observed members named `id` overwrite it (a
`null` member is a no-op, a mismatched member flags an error), all other
members are ignored. Used by the out-of-scope reference models. -/
def idObjFields (id : String) (bad : Bool) : List (String × Json) → String × Bool
  | [] => (id, bad)
  | (k, val) :: rest =>
      if k = "id" then
        let (id', e) := unmarshalString val id
        idObjFields id' (bad || e) rest
      else idObjFields id bad rest

/-- Model of `json.Unmarshal` of a fragment into a `**SKU` target (the `sku` branch
of `OrderItem.UnmarshalJSON`): `null` stores nil without error; an object
allocates a `SKU` and decodes its members; any other shape still allocates
the pointer (encoding/json allocates before the type check) and reports a
type error. -/
def unmarshalSKUPtr (frag : Json) (prev : Option SKU) : Option SKU × Bool :=
  match frag with
  | .null => (none, false)
  | .obj fields =>
      let (id, e) := idObjFields (prev.getD {}).ID false fields
      (some { ID := id }, e)
  | _ => (some (prev.getD {}), true)

/-- Modelled from the spec: decoding a `*Charge` field. `Charge` is an
expandable reference (out of scope), so a bare string or an object with an
`id` are accepted; `null` stores nil; other shapes fail after allocation. -/
def unmarshalChargePtr (frag : Json) (prev : Option Charge) : Option Charge × Bool :=
  match frag with
  | .null => (none, false)
  | .str s => (some { ID := s }, false)
  | .obj fields =>
      let (id, e) := idObjFields (prev.getD {}).ID false fields
      (some { ID := id }, e)
  | _ => (some (prev.getD {}), true)

/-- Modelled from the spec: decoding the non-pointer `Customer` field.
`Customer` is an expandable reference (out of scope): a bare string or an
object with an `id` are accepted, `null` is a no-op, other shapes fail. -/
def unmarshalCustomer (frag : Json) (prev : Customer) : Customer × Bool :=
  match frag with
  | .null => (prev, false)
  | .str s => ({ ID := s }, false)
  | .obj fields =>
      let (id, e) := idObjFields prev.ID false fields
      ({ ID := id }, e)
  | _ => (prev, true)

/-- Modelled from the spec: decoding a `*Address` field; the schema is out
of scope, so an object is accepted wholesale. -/
def unmarshalAddressPtr (frag : Json) (prev : Option Address) : Option Address × Bool :=
  match frag with
  | .null => (none, false)
  | .obj fields => (some { Fields := fields }, false)
  | _ => (some (prev.getD {}), true)

/-- Modelled from the spec: decoding the `*OrderReturnList` field; the
container is out of scope, so only its `data` array is retained. -/
def unmarshalReturnsPtr (frag : Json) (prev : Option OrderReturnList) :
    Option OrderReturnList × Bool :=
  match frag with
  | .null => (none, false)
  | .obj fields =>
      let d := (fields.reverse.find? (fun p => p.1 = "data")).map Prod.snd
      match d with
      | some (.arr xs) => (some { Data := xs }, false)
      | some .null => (some { Data := (prev.getD {}).Data }, false)
      | some _ => (some { Data := (prev.getD {}).Data }, true)
      | none => (some { Data := (prev.getD {}).Data }, false)
  | _ => (some (prev.getD {}), true)

/-- Overwrite-or-append insertion, mirroring assignment into a Go map. -/
def mapInsert (m : List (String × String)) (k v : String) : List (String × String) :=
  match m with
  | [] => [(k, v)]
  | (k', v') :: rest => if k' = k then (k, v) :: rest else (k', v') :: mapInsert rest k v

/-- Decoding the members of a JSON object into a `map[string]string`:
string members are stored, a `null` member stores the zero string, and a
mismatched member stores the zero string and flags an error (encoding/json
records the first error and keeps going). -/
def metadataFields (m : List (String × String)) (bad : Bool) :
    List (String × Json) → List (String × String) × Bool
  | [] => (m, bad)
  | (k, val) :: rest =>
      match val with
      | .str s => metadataFields (mapInsert m k s) bad rest
      | .null => metadataFields (mapInsert m k "") bad rest
      | _ => metadataFields (mapInsert m k "") true rest

/-- Model of `json.Unmarshal` of a fragment into a `map[string]string` target. -/
def unmarshalMetadata (frag : Json) (prev : List (String × String)) :
    List (String × String) × Bool :=
  match frag with
  | .null => ([], false)
  | .obj fields => metadataFields prev false fields
  | _ => (prev, true)

/-- Structure `OrderItemParent` (order.go): the discriminated parent reference of an
order item. All three fields carry the tag `json:"-"`, so none of them is
touched by a plain struct decode. The Go field `SKU *SKU` becomes
`Option SKU`. -/
structure OrderItemParent where
  ID : String := ""
  SKU : Option SKU := none
  «Type» : OrderItemParentType := ""

/-- Structure `OrderItem` (order.go). `Parent *OrderItemParent` becomes
`Option OrderItemParent`; its zero value is nil (`none`). -/
structure OrderItem where
  Amount : Int := 0
  Currency : Currency := ""
  Description : String := ""
  Parent : Option OrderItemParent := none
  Quantity : Int := 0
  «Type» : OrderItemType := ""

/-- One member of the plain struct decode of `orderItem` (the method-free
alias of `OrderItem`): the wire keys are `amount`, `currency`,
`description`, `quantity` and `type`; `Parent` is tagged `json:"-"` and
every unknown key is ignored. -/
def orderItemSetField (v : OrderItem) (bad : Bool) (k : String) (val : Json) :
    OrderItem × Bool :=
  if k = "amount" then
    let (x, e) := unmarshalInt64 val v.Amount
    ({ v with Amount := x }, bad || e)
  else if k = "currency" then
    let (x, e) := unmarshalString val v.Currency
    ({ v with Currency := x }, bad || e)
  else if k = "description" then
    let (x, e) := unmarshalString val v.Description
    ({ v with Description := x }, bad || e)
  else if k = "quantity" then
    let (x, e) := unmarshalInt64 val v.Quantity
    ({ v with Quantity := x }, bad || e)
  else if k = "type" then
    let (x, e) := unmarshalString val v.«Type»
    ({ v with «Type» := x }, bad || e)
  else (v, bad)

/-- Decode the members of a JSON object into an `orderItem`, in input
order, recording whether any member produced a type error. -/
def orderItemFields (v : OrderItem) (bad : Bool) :
    List (String × Json) → Option OrderItem
  | [] => if bad then none else some v
  | (k, val) :: rest =>
      let (v', bad') := orderItemSetField v bad k val
      orderItemFields v' bad' rest

/-- Step 1 of `OrderItem.UnmarshalJSON`:
`json.Unmarshal(data, &v)` for `var v orderItem` — the scalar pass over
the payload. `null` leaves `v` at its zero value without error; a
non-object, non-null payload is a type error (`none`). -/
def orderItemScalarDecode : Json → Option OrderItem
  | .null => some {}
  | .obj fields => orderItemFields {} false fields
  | _ => none

/-- Step 2 of `OrderItem.UnmarshalJSON`:
`json.Unmarshal(data, &rawObject)` for
`var rawObject map[string]*json.RawMessage`. Every member keeps its raw
fragment; a `null` member stores a nil `*json.RawMessage` (`none`);
decoding `null` yields the nil map. -/
def rawObjectDecode : Json → Option (List (String × Option Json))
  | .null => some []
  | .obj fields =>
      some (fields.map fun p =>
        (p.1, match p.2 with
              | .null => none
              | v => some v))
  | _ => none

/-- Go map indexing `rawObject[k]`: a missing key yields the zero value of
`*json.RawMessage`, i.e. nil; with duplicate keys the last member wins. -/
def rawLookup (m : List (String × Option Json)) (k : String) : Option (Option Json) :=
  (m.reverse.find? (fun p => p.1 = k)).map Prod.snd

/-- The `coupon` and `shipping` arms of the `switch` in
`OrderItem.UnmarshalJSON` (they are identical up to the tag written):

`if err = json.Unmarshal(*rawObject["parent"], &oi.Parent.ID); err != nil {
  oi.Parent.Type = tag }`

A missing `parent` key or a nil raw message makes `*rawObject["parent"]`
a nil dereference. The final `return err` surfaces the decode error. -/
def couponShippingArm (oi : OrderItem) (raw : List (String × Option Json))
    (tag : OrderItemParentType) : JRes OrderItem :=
  match rawLookup raw "parent" with
  | none => .panic .nilRawMessage
  | some none => .panic .nilRawMessage
  | some (some frag) =>
      let p := oi.Parent.getD {}
      let (id, e) := unmarshalString frag p.ID
      if e then .err { oi with Parent := some { p with ID := id, «Type» := tag } }
      else .ok { oi with Parent := some { p with ID := id } }

/-- The `sku` arm of the `switch` in `OrderItem.UnmarshalJSON`:

`if err = json.Unmarshal(*rawObject["parent"], &oi.Parent.SKU); err != nil {
  oi.Parent.ID = oi.Parent.SKU.ID; oi.Parent.Type = OrderItemParentTypeSKU }`

The unmarshal writes `oi.Parent.SKU` even when it reports an error; if it
left the pointer nil, `oi.Parent.SKU.ID` would be a nil dereference. -/
def skuArm (oi : OrderItem) (raw : List (String × Option Json)) : JRes OrderItem :=
  match rawLookup raw "parent" with
  | none => .panic .nilRawMessage
  | some none => .panic .nilRawMessage
  | some (some frag) =>
      let p := oi.Parent.getD {}
      let (sk, e) := unmarshalSKUPtr frag p.SKU
      if e then
        match sk with
        | none => .panic .nilSKU
        | some s =>
            .err { oi with Parent := some { p with ID := s.ID, SKU := sk, «Type» := OrderItemParentTypeSKU } }
      else .ok { oi with Parent := some { p with SKU := sk } }

/-- Method `OrderItem.UnmarshalJSON` (order.go): scalar pass, raw-fragment pass,
then the `switch` on `oi.Type`, and `return err` — the error of the last
parent unmarshal, `nil` when no arm ran or the arm's decode succeeded. -/
def OrderItem.unmarshalJSON (oi : OrderItem) (data : Json) : JRes OrderItem :=
  match orderItemScalarDecode data with
  | none => .err oi
  | some v =>
    let oi1 : OrderItem := { v with Parent := some {} }
    match rawObjectDecode data with
    | none => .err oi1
    | some raw =>
        if oi1.«Type» = OrderItemTypeCoupon then
          couponShippingArm oi1 raw OrderItemParentTypeCoupon
        else if oi1.«Type» = OrderItemTypeShipping then
          couponShippingArm oi1 raw OrderItemParentTypeShipping
        else if oi1.«Type» = OrderItemTypeSKU then
          skuArm oi1 raw
        else .ok oi1

/-- Structure `DeliveryEstimate` (order.go); wire keys `date`, `earliest`, `latest`,
`type`. -/
structure DeliveryEstimate where
  Date : String := ""
  Earliest : String := ""
  Latest : String := ""
  «Type» : String := ""

/-- Structure `ShippingMethod` (order.go); wire keys `amount`, `id`, `currency`,
`delivery_estimate`, `description`. -/
structure ShippingMethod where
  Amount : Int := 0
  ID : String := ""
  Currency : Currency := ""
  DeliveryEstimate : Option DeliveryEstimate := none
  Description : String := ""

/-- Structure `Shipping` (order.go); wire keys `address`, `carrier`, `name`,
`phone`, `tracking_number`. -/
structure Shipping where
  Address : Option Address := none
  Carrier : String := ""
  Name : String := ""
  Phone : String := ""
  TrackingNumber : String := ""

/-- Structure `StatusTransitions` (order.go); the wire key for `Fulfilled` is
literally `fulfiled` — that is the remote contract. -/
structure StatusTransitions where
  Canceled : Int := 0
  Fulfilled : Int := 0
  Paid : Int := 0
  Returned : Int := 0

/-- Structure `Order` (order.go). Pointer fields become `Option`, slices become
lists whose elements are `Option` (a `null` element is a nil pointer),
`Metadata` is an association list standing for the Go map. -/
structure Order where
  Amount : Int := 0
  AmountReturned : Int := 0
  Application : String := ""
  ApplicationFee : Int := 0
  Charge : Option Charge := none
  Created : Int := 0
  Currency : Currency := ""
  Customer : Customer := {}
  Email : String := ""
  ID : String := ""
  Items : List (Option OrderItem) := []
  Livemode : Bool := false
  Metadata : List (String × String) := []
  Returns : Option OrderReturnList := none
  SelectedShippingMethod : Option String := none
  Shipping : Option Shipping := none
  ShippingMethods : List (Option ShippingMethod) := []
  Status : String := ""
  StatusTransitions : StatusTransitions := {}
  Updated : Int := 0

/-- Decoding the members of an object into a `DeliveryEstimate`. -/
def deliveryEstimateFields (v : DeliveryEstimate) (bad : Bool) :
    List (String × Json) → DeliveryEstimate × Bool
  | [] => (v, bad)
  | (k, val) :: rest =>
      if k = "date" then
        let (x, e) := unmarshalString val v.Date
        deliveryEstimateFields { v with Date := x } (bad || e) rest
      else if k = "earliest" then
        let (x, e) := unmarshalString val v.Earliest
        deliveryEstimateFields { v with Earliest := x } (bad || e) rest
      else if k = "latest" then
        let (x, e) := unmarshalString val v.Latest
        deliveryEstimateFields { v with Latest := x } (bad || e) rest
      else if k = "type" then
        let (x, e) := unmarshalString val v.«Type»
        deliveryEstimateFields { v with «Type» := x } (bad || e) rest
      else deliveryEstimateFields v bad rest

/-- Model of `json.Unmarshal` of a fragment into a `*DeliveryEstimate` target. -/
def unmarshalDeliveryEstimatePtr (frag : Json) (prev : Option DeliveryEstimate) :
    Option DeliveryEstimate × Bool :=
  match frag with
  | .null => (none, false)
  | .obj fields =>
      let (v, e) := deliveryEstimateFields (prev.getD {}) false fields
      (some v, e)
  | _ => (some (prev.getD {}), true)

/-- Decoding the members of an object into a `ShippingMethod`. -/
def shippingMethodFields (v : ShippingMethod) (bad : Bool) :
    List (String × Json) → ShippingMethod × Bool
  | [] => (v, bad)
  | (k, val) :: rest =>
      if k = "amount" then
        let (x, e) := unmarshalInt64 val v.Amount
        shippingMethodFields { v with Amount := x } (bad || e) rest
      else if k = "id" then
        let (x, e) := unmarshalString val v.ID
        shippingMethodFields { v with ID := x } (bad || e) rest
      else if k = "currency" then
        let (x, e) := unmarshalString val v.Currency
        shippingMethodFields { v with Currency := x } (bad || e) rest
      else if k = "delivery_estimate" then
        let (x, e) := unmarshalDeliveryEstimatePtr val v.DeliveryEstimate
        shippingMethodFields { v with DeliveryEstimate := x } (bad || e) rest
      else if k = "description" then
        let (x, e) := unmarshalString val v.Description
        shippingMethodFields { v with Description := x } (bad || e) rest
      else shippingMethodFields v bad rest

/-- Decoding a JSON array into `[]*ShippingMethod`: a `null` element is a
nil pointer; `ShippingMethod` has no custom unmarshaller, so element type
errors are recorded and decoding continues. -/
def decodeShippingMethods (bad : Bool) :
    List Json → List (Option ShippingMethod) × Bool
  | [] => ([], bad)
  | x :: rest =>
      match x with
      | .null =>
          let (l, b) := decodeShippingMethods bad rest
          (none :: l, b)
      | .obj fields =>
          let (v, e) := shippingMethodFields {} false fields
          let (l, b) := decodeShippingMethods (bad || e) rest
          (some v :: l, b)
      | _ =>
          let (l, b) := decodeShippingMethods true rest
          (some {} :: l, b)

/-- Decoding the members of an object into a `Shipping`. -/
def shippingFields (v : Shipping) (bad : Bool) :
    List (String × Json) → Shipping × Bool
  | [] => (v, bad)
  | (k, val) :: rest =>
      if k = "address" then
        let (x, e) := unmarshalAddressPtr val v.Address
        shippingFields { v with Address := x } (bad || e) rest
      else if k = "carrier" then
        let (x, e) := unmarshalString val v.Carrier
        shippingFields { v with Carrier := x } (bad || e) rest
      else if k = "name" then
        let (x, e) := unmarshalString val v.Name
        shippingFields { v with Name := x } (bad || e) rest
      else if k = "phone" then
        let (x, e) := unmarshalString val v.Phone
        shippingFields { v with Phone := x } (bad || e) rest
      else if k = "tracking_number" then
        let (x, e) := unmarshalString val v.TrackingNumber
        shippingFields { v with TrackingNumber := x } (bad || e) rest
      else shippingFields v bad rest

/-- Model of `json.Unmarshal` of a fragment into a `*Shipping` target. -/
def unmarshalShippingPtr (frag : Json) (prev : Option Shipping) :
    Option Shipping × Bool :=
  match frag with
  | .null => (none, false)
  | .obj fields =>
      let (v, e) := shippingFields (prev.getD {}) false fields
      (some v, e)
  | _ => (some (prev.getD {}), true)

/-- Decoding the members of an object into a `StatusTransitions` (wire
keys `canceled`, `fulfiled`, `paid`, `returned`). -/
def statusTransitionsFields (v : StatusTransitions) (bad : Bool) :
    List (String × Json) → StatusTransitions × Bool
  | [] => (v, bad)
  | (k, val) :: rest =>
      if k = "canceled" then
        let (x, e) := unmarshalInt64 val v.Canceled
        statusTransitionsFields { v with Canceled := x } (bad || e) rest
      else if k = "fulfiled" then
        let (x, e) := unmarshalInt64 val v.Fulfilled
        statusTransitionsFields { v with Fulfilled := x } (bad || e) rest
      else if k = "paid" then
        let (x, e) := unmarshalInt64 val v.Paid
        statusTransitionsFields { v with Paid := x } (bad || e) rest
      else if k = "returned" then
        let (x, e) := unmarshalInt64 val v.Returned
        statusTransitionsFields { v with Returned := x } (bad || e) rest
      else statusTransitionsFields v bad rest

/-- Model of `json.Unmarshal` of a fragment into the non-pointer
`StatusTransitions` field: `null` is a no-op, an object decodes the
members, anything else is a type error. -/
def unmarshalStatusTransitions (frag : Json) (prev : StatusTransitions) :
    StatusTransitions × Bool :=
  match frag with
  | .null => (prev, false)
  | .obj fields => statusTransitionsFields prev false fields
  | _ => (prev, true)

/-- Decoding a JSON array into `[]*OrderItem`: a `null` element is a nil
pointer; any other element allocates a zero `OrderItem` and runs
`OrderItem.UnmarshalJSON` on it — an error returned by that custom
unmarshaller aborts the whole decode, and a panic propagates. -/
def decodeItems : List Json → JRes (List (Option OrderItem))
  | [] => .ok []
  | x :: rest =>
      match x with
      | .null =>
          match decodeItems rest with
          | .ok l => .ok (none :: l)
          | .err l => .err l
          | .panic s => .panic s
      | _ =>
          match OrderItem.unmarshalJSON {} x with
          | .ok oi =>
              match decodeItems rest with
              | .ok l => .ok (some oi :: l)
              | .err l => .err l
              | .panic s => .panic s
          | .err _ => .err []
          | .panic s => .panic s

/-- Outcome of decoding one object member into the `order` struct:
continue with the updated value, abort with an error (a custom
unmarshaller failed), or panic. -/
inductive FieldStep where
  | cont : Order → Bool → FieldStep
  | abort : FieldStep
  | oops : PanicSite → FieldStep

/-- One member of the plain struct decode of `order` (the method-free
alias of `Order`), keyed by the wire name. Plain fields record type
errors and continue; the fields backed by custom unmarshallers
(`charge`, `customer`, `items` elements) abort on error, and an `items`
element may panic. Unknown keys are ignored. -/
def orderSetField (v : Order) (bad : Bool) (k : String) (val : Json) : FieldStep :=
  if k = "amount" then
    .cont { v with Amount := (unmarshalInt64 val v.Amount).1 } (bad || (unmarshalInt64 val v.Amount).2)
  else if k = "amount_returned" then
    .cont { v with AmountReturned := (unmarshalInt64 val v.AmountReturned).1 } (bad || (unmarshalInt64 val v.AmountReturned).2)
  else if k = "application" then
    .cont { v with Application := (unmarshalString val v.Application).1 } (bad || (unmarshalString val v.Application).2)
  else if k = "application_fee" then
    .cont { v with ApplicationFee := (unmarshalInt64 val v.ApplicationFee).1 } (bad || (unmarshalInt64 val v.ApplicationFee).2)
  else if k = "charge" then
    if (unmarshalChargePtr val v.Charge).2 then .abort
    else .cont { v with Charge := (unmarshalChargePtr val v.Charge).1 } bad
  else if k = "created" then
    .cont { v with Created := (unmarshalInt64 val v.Created).1 } (bad || (unmarshalInt64 val v.Created).2)
  else if k = "currency" then
    .cont { v with Currency := (unmarshalString val v.Currency).1 } (bad || (unmarshalString val v.Currency).2)
  else if k = "customer" then
    if (unmarshalCustomer val v.Customer).2 then .abort
    else .cont { v with Customer := (unmarshalCustomer val v.Customer).1 } bad
  else if k = "email" then
    .cont { v with Email := (unmarshalString val v.Email).1 } (bad || (unmarshalString val v.Email).2)
  else if k = "id" then
    .cont { v with ID := (unmarshalString val v.ID).1 } (bad || (unmarshalString val v.ID).2)
  else if k = "items" then
    match val with
    | .null => .cont { v with Items := [] } bad
    | .arr xs =>
        match decodeItems xs with
        | .ok l => .cont { v with Items := l } bad
        | .err _ => .abort
        | .panic s => .oops s
    | _ => .cont v true
  else if k = "livemode" then
    .cont { v with Livemode := (unmarshalBool val v.Livemode).1 } (bad || (unmarshalBool val v.Livemode).2)
  else if k = "metadata" then
    .cont { v with Metadata := (unmarshalMetadata val v.Metadata).1 } (bad || (unmarshalMetadata val v.Metadata).2)
  else if k = "returns" then
    .cont { v with Returns := (unmarshalReturnsPtr val v.Returns).1 } (bad || (unmarshalReturnsPtr val v.Returns).2)
  else if k = "selected_shipping_method" then
    .cont { v with SelectedShippingMethod := (unmarshalStringPtr val v.SelectedShippingMethod).1 } (bad || (unmarshalStringPtr val v.SelectedShippingMethod).2)
  else if k = "shipping" then
    .cont { v with Shipping := (unmarshalShippingPtr val v.Shipping).1 } (bad || (unmarshalShippingPtr val v.Shipping).2)
  else if k = "shipping_methods" then
    match val with
    | .null => .cont { v with ShippingMethods := [] } bad
    | .arr xs =>
        .cont { v with ShippingMethods := (decodeShippingMethods false xs).1 } (bad || (decodeShippingMethods false xs).2)
    | _ => .cont v true
  else if k = "status" then
    .cont { v with Status := (unmarshalString val v.Status).1 } (bad || (unmarshalString val v.Status).2)
  else if k = "status_transitions" then
    .cont { v with StatusTransitions := (unmarshalStatusTransitions val v.StatusTransitions).1 } (bad || (unmarshalStatusTransitions val v.StatusTransitions).2)
  else if k = "updated" then
    .cont { v with Updated := (unmarshalInt64 val v.Updated).1 } (bad || (unmarshalInt64 val v.Updated).2)
  else .cont v bad

/-- Decode the members of a JSON object into an `order`, in input order. -/
def orderFields (v : Order) (bad : Bool) : List (String × Json) → JRes Order
  | [] => if bad then .err v else .ok v
  | (k, val) :: rest =>
      match orderSetField v bad k val with
      | .cont v' bad' => orderFields v' bad' rest
      | .abort => .err v
      | .oops s => .panic s

/-- Model of `json.Unmarshal(data, &v)` for `var v order` in `Order.UnmarshalJSON`:
`null` leaves the zero value without error, an object decodes its
members, anything else is a type error. -/
def orderStructDecode : Json → JRes Order
  | .null => .ok {}
  | .obj fields => orderFields {} false fields
  | _ => .err {}

/-- Method `Order.UnmarshalJSON` (order.go): try `ParseID` first — a bare string
only sets `ID` and returns; otherwise run the full struct decode and, on
success, overwrite the receiver with the decoded value. -/
def Order.unmarshalJSON (o : Order) (data : Json) : JRes Order :=
  match ParseID data with
  | some id => .ok { o with ID := id }
  | none =>
      match orderStructDecode data with
      | .ok v => .ok v
      | .err _ => .err o
      | .panic s => .panic s

/-! ## Observations used in claim statements -/

/-- Whether the shape-specific decode of the `parent` fragment performed
by the arm for item type `t` reports an error: the `sku` arm decodes into
`**SKU`, the `coupon`/`shipping` arms into the empty-initialised
`Parent.ID` string. -/
def shapeErr (t : OrderItemType) (frag : Json) : Bool :=
  if t = OrderItemTypeSKU then (unmarshalSKUPtr frag none).2
  else (unmarshalString frag "").2

/-- The string stored by the `id` members of an object decode, if any:
the last member named `id` carrying a JSON string wins; `null` members
leave the previous value. -/
def lastIdUpd : List (String × Json) → Option String
  | [] => none
  | (k, val) :: rest =>
      match lastIdUpd rest with
      | some s => some s
      | none =>
          if k = "id" then
            match val with
            | .str s => some s
            | _ => none
          else none

/-- The identifier a payload carries for an `Order`: the string itself
for a bare reference, the decoded `id` member for an object, and nothing
otherwise. -/
def payloadId : Json → String
  | .str s => s
  | .obj fields => (lastIdUpd fields).getD ""
  | _ => ""

/-- Whether a decode outcome is the runtime panic at the
`oi.Parent.SKU.ID` dereference. -/
def isNilSKUPanic {α : Type} : JRes α → Bool
  | .panic .nilSKU => true
  | _ => false

/-! ## Concrete payloads -/

/-- Payload `{"type": "coupon", "parent": "coup_1"}`. -/
def couponItemJson : Json := .obj [("type", .str "coupon"), ("parent", .str "coup_1")]

/-- Payload `{"type": "shipping", "parent": "ship_1"}`. -/
def shippingItemJson : Json := .obj [("type", .str "shipping"), ("parent", .str "ship_1")]

/-- Payload `{"type": "coupon", "parent": 3}` — the parent fragment is not a
string, so the coupon arm's decode fails. -/
def couponBadParentJson : Json := .obj [("type", .str "coupon"), ("parent", .num 3)]

/-- Payload `{"type": "sku", "parent": {"id": "sku_1"}}`. -/
def skuExpandedJson : Json := .obj [("type", .str "sku"), ("parent", .obj [("id", .str "sku_1")])]

/-- Payload `{"type": "sku", "parent": "sku_1"}` — the parent fragment is a bare
string, which does not decode as a SKU object. -/
def skuStringParentJson : Json := .obj [("type", .str "sku"), ("parent", .str "sku_1")]

/-- Payload `{"type": "coupon"}` — no `parent` member at all. -/
def missingParentCouponJson : Json := .obj [("type", .str "coupon")]

/-- Payload `{"type": "sku"}` — no `parent` member at all. -/
def missingParentSkuJson : Json := .obj [("type", .str "sku")]

/-- A full order object covering every declared field of `Order`. -/
def fullOrderJson : Json :=
  .obj [("amount", .num 100), ("amount_returned", .num 5), ("application", .str "app_1"),
    ("application_fee", .num 7), ("charge", .obj [("id", .str "ch_1")]), ("created", .num 111),
    ("currency", .str "usd"), ("customer", .str "cus_1"), ("email", .str "a@b.c"),
    ("id", .str "order_123"),
    ("items", .arr [.obj [("type", .str "discount"), ("amount", .num 3), ("currency", .str "usd"), ("description", .str "d"), ("quantity", .num 2)]]),
    ("livemode", .bool true), ("metadata", .obj [("k", .str "v")]),
    ("returns", .obj [("data", .arr [])]),
    ("selected_shipping_method", .str "ship_1"),
    ("shipping", .obj [("address", .obj [("line1", .str "l1")]), ("carrier", .str "c"), ("name", .str "n"), ("phone", .str "p"), ("tracking_number", .str "t")]),
    ("shipping_methods", .arr [.obj [("amount", .num 9), ("id", .str "sm_1"), ("currency", .str "usd"), ("delivery_estimate", .obj [("type", .str "exact"), ("date", .str "2020-01-01")]), ("description", .str "sd")]]),
    ("status", .str "paid"),
    ("status_transitions", .obj [("canceled", .num 0), ("fulfiled", .num 1), ("paid", .num 2), ("returned", .num 3)]),
    ("updated", .num 222)]

/-- The `Order` value `fullOrderJson` decodes to: every declared field is
populated from the corresponding member. -/
def fullOrderExpected : Order :=
  { Amount := 100, AmountReturned := 5, Application := "app_1", ApplicationFee := 7,
    Charge := some { ID := "ch_1" }, Created := 111, Currency := "usd",
    Customer := { ID := "cus_1" }, Email := "a@b.c", ID := "order_123",
    Items := [some { Amount := 3, Currency := "usd", Description := "d", Parent := some {}, Quantity := 2, «Type» := "discount" }],
    Livemode := true, Metadata := [("k", "v")],
    Returns := some { Data := [] },
    SelectedShippingMethod := some "ship_1",
    Shipping := some { Address := some { Fields := [("line1", .str "l1")] }, Carrier := "c", Name := "n", Phone := "p", TrackingNumber := "t" },
    ShippingMethods := [some { Amount := 9, ID := "sm_1", Currency := "usd", DeliveryEstimate := some { Date := "2020-01-01", «Type» := "exact" }, Description := "sd" }],
    Status := "paid",
    StatusTransitions := { Canceled := 0, Fulfilled := 1, Paid := 2, Returned := 3 },
    Updated := 222 }

/-! ## Claims settled by evaluation -/

/-- C1. Decoding `{"type": "coupon", "parent": "coup_1"}` (and likewise
`shipping`) yields `Parent.ID` as claimed, but `Parent.Type` is left
empty, not set to `coupon`/`shipping`: the arm only writes the tag when
the inner decode fails (`err != nil`), so on the successful bare-string
decode the discriminant stays `""`. The unnamed fields of the expected
records are at their defaults; in particular `Parent.Type = ""`. -/
theorem order_item_coupon_shipping_decode_eval :
    OrderItem.unmarshalJSON {} couponItemJson =
      .ok { «Type» := OrderItemTypeCoupon, Parent := some { ID := "coup_1" } } ∧
    OrderItem.unmarshalJSON {} shippingItemJson =
      .ok { «Type» := OrderItemTypeShipping, Parent := some { ID := "ship_1" } } :=
  ⟨rfl, rfl⟩

/-- C4. Decoding `{"type": "sku", "parent": {"id": "sku_1"}}` populates
`Parent.SKU.ID = "sku_1"`, but — because the copy and the tag are guarded
by `err != nil` — `Parent.ID` stays `""` (not `"sku_1"`) and
`Parent.Type` stays `""` (not `sku`). -/
theorem order_item_sku_expanded_decode_eval :
    OrderItem.unmarshalJSON {} skuExpandedJson =
      .ok { «Type» := OrderItemTypeSKU,
            Parent := some { ID := "", SKU := some { ID := "sku_1" } } } :=
  rfl

/-- C6. A payload on which `OrderItem.UnmarshalJSON` succeeds with
`Type = sku` violates the claimed invariant: the nested SKU object is
populated (`s.ID = "sku_1"`) but `Parent.ID` is left empty rather than
copied from it. -/
theorem order_item_success_invariant_eval :
    ∃ oi' p s,
      OrderItem.unmarshalJSON {} skuExpandedJson = .ok oi' ∧
      oi'.«Type» = OrderItemTypeSKU ∧ oi'.Parent = some p ∧
      p.SKU = some s ∧ s.ID = "sku_1" ∧ p.ID = "" ∧ p.ID ≠ s.ID :=
  ⟨_, _, _, rfl, rfl, rfl, rfl, rfl, rfl, by decide⟩

/-- C9. An order-item object whose `type` selects a parent arm but which
has no `parent` member makes `rawObject["parent"]` the nil
`*json.RawMessage`, and `*rawObject["parent"]` panics. -/
theorem order_item_missing_parent_panics :
    OrderItem.unmarshalJSON {} missingParentCouponJson = .panic .nilRawMessage ∧
    OrderItem.unmarshalJSON {} missingParentSkuJson = .panic .nilRawMessage :=
  ⟨rfl, rfl⟩

/-- C5. Decoding the bare JSON string `"order_123"` yields an `Order`
whose `ID` is `"order_123"` and whose every other field is at its zero
value (the expected record sets only `ID`); decoding a full order object
populates every declared field from the object. -/
theorem order_dual_shape_decode :
    Order.unmarshalJSON {} (.str "order_123") = .ok { ID := "order_123" } ∧
    Order.unmarshalJSON {} fullOrderJson = .ok fullOrderExpected :=
  ⟨rfl, rfl⟩

/-- C3 counterexample. For `{"type": "coupon", "parent": 3}` the scalar
pass (step 1) and the raw-fragment pass (step 2) both succeed, the coupon
arm's parent decode fails, and `OrderItem.UnmarshalJSON` *does* return an
error — `return err` surfaces the step-3 failure, contradicting the claim
that it is swallowed. -/
theorem order_item_parent_error_is_surfaced_cex :
    orderItemScalarDecode couponBadParentJson = some { «Type» := OrderItemTypeCoupon } ∧
    rawObjectDecode couponBadParentJson =
      some [("type", some (.str "coupon")), ("parent", some (.num 3))] ∧
    OrderItem.unmarshalJSON {} couponBadParentJson =
      .err { «Type» := OrderItemTypeCoupon,
             Parent := some { ID := "", «Type» := OrderItemParentTypeCoupon } } :=
  ⟨rfl, rfl, rfl⟩

/-- C7 counterexample. `{"amount": 5}` is a well-formed order object with
no `id` member: `Order.UnmarshalJSON` succeeds and the resulting `ID` is
the empty string — the `ID` field is not populated after this successful
decode. -/
theorem order_id_empty_after_object_decode_cex :
    Order.unmarshalJSON {} (.obj [("amount", .num 5)]) = .ok { Amount := 5 } ∧
    ({ Amount := 5 : Order }).ID = "" :=
  ⟨rfl, rfl⟩

/-- C8 counterexample. The payload `null` is neither a bare JSON string
(`ParseID` rejects it) nor an order object, yet `Order.UnmarshalJSON`
accepts it: `encoding/json` treats `null` as a no-op for a struct target,
so the decode succeeds with the zero `Order` instead of returning an
error. -/
theorem order_null_payload_accepted_cex :
    ParseID .null = none ∧ Order.unmarshalJSON {} .null = .ok {} :=
  ⟨rfl, rfl⟩

/-! ## Helper lemmas -/

/-- Whenever the scalar pass (step 1) accepts a payload, the raw-fragment
pass (step 2) accepts it as well. -/
theorem rawObjectDecode_of_scalar (data : Json) (v : OrderItem)
    (h : orderItemScalarDecode data = some v) :
    ∃ raw, rawObjectDecode data = some raw := by
  cases data <;> simp_all [orderItemScalarDecode, rawObjectDecode]

/-- A failing `**SKU` unmarshal has always allocated the target pointer. -/
theorem unmarshalSKUPtr_some_of_err (frag : Json) (prev : Option SKU)
    (h : (unmarshalSKUPtr frag prev).2 = true) :
    ∃ s, (unmarshalSKUPtr frag prev).1 = some s := by
  cases frag <;> simp_all [unmarshalSKUPtr]

/-- Method `OrderItem.UnmarshalJSON`, reduced past its first two steps. -/
theorem orderItem_unmarshalJSON_eq_arm (oi₀ : OrderItem) (data : Json)
    (v : OrderItem) (raw : List (String × Option Json))
    (h1 : orderItemScalarDecode data = some v)
    (h2 : rawObjectDecode data = some raw) :
    OrderItem.unmarshalJSON oi₀ data =
      (if v.«Type» = OrderItemTypeCoupon then
        couponShippingArm { v with Parent := some {} } raw OrderItemParentTypeCoupon
      else if v.«Type» = OrderItemTypeShipping then
        couponShippingArm { v with Parent := some {} } raw OrderItemParentTypeShipping
      else if v.«Type» = OrderItemTypeSKU then
        skuArm { v with Parent := some {} } raw
      else .ok { v with Parent := some {} }) := by
  unfold OrderItem.unmarshalJSON
  simp only [h1, h2]

/-- Outcomes of the `coupon`/`shipping` arm started on a fresh parent:
on success the tag is left empty, on failure the tag is written. -/
theorem couponShippingArm_cases (oi : OrderItem) (raw : List (String × Option Json))
    (tag : OrderItemParentType) (hP : oi.Parent = some {}) :
    (∀ oi', couponShippingArm oi raw tag = .ok oi' →
        ∃ p, oi'.Parent = some p ∧ p.«Type» = "") ∧
    (∀ oi', couponShippingArm oi raw tag = .err oi' →
        ∃ p, oi'.Parent = some p ∧ p.«Type» = tag) := by
  unfold couponShippingArm
  rw [hP]
  cases hL : rawLookup raw "parent" with
  | none => simp
  | some o =>
      cases o with
      | none => simp
      | some frag =>
          rcases hu : unmarshalString frag "" with ⟨id, e⟩
          simp only [Option.getD_some, hu]
          cases e <;> simp

/-- Outcomes of the `sku` arm started on a fresh parent: on success the
tag is left empty, on failure the tag is written (and no nil-`SKU` panic
is possible, since a failing decode has allocated the pointer). -/
theorem skuArm_cases (oi : OrderItem) (raw : List (String × Option Json))
    (hP : oi.Parent = some {}) :
    (∀ oi', skuArm oi raw = .ok oi' →
        ∃ p, oi'.Parent = some p ∧ p.«Type» = "") ∧
    (∀ oi', skuArm oi raw = .err oi' →
        ∃ p, oi'.Parent = some p ∧ p.«Type» = OrderItemParentTypeSKU) := by
  unfold skuArm
  rw [hP]
  cases hL : rawLookup raw "parent" with
  | none => simp
  | some o =>
      cases o with
      | none => simp
      | some frag =>
          rcases hu : unmarshalSKUPtr frag none with ⟨sk, e⟩
          simp only [Option.getD_some, hu]
          cases e
          · simp
          · obtain ⟨s, hs⟩ := unmarshalSKUPtr_some_of_err frag none (by rw [hu])
            rw [hu] at hs
            simp only at hs
            subst hs
            simp

/-- C2. For every payload whose scalar pass yields an item `Type` of
`coupon`, `shipping` or `sku`, the discriminant `Parent.Type` is written
only when the arm's inner decode of the `parent` fragment errors (the
decode error is then what `UnmarshalJSON` returns); when the inner decode
succeeds the discriminant is left empty. -/
theorem order_item_parent_tag_set_iff_inner_decode_fails
    (data : Json) (oi₀ v : OrderItem)
    (hscalar : orderItemScalarDecode data = some v)
    (htype : v.«Type» = OrderItemTypeCoupon ∨ v.«Type» = OrderItemTypeShipping ∨
      v.«Type» = OrderItemTypeSKU) :
    (∀ oi', OrderItem.unmarshalJSON oi₀ data = .ok oi' →
        ∃ p, oi'.Parent = some p ∧ p.«Type» = "") ∧
    (∀ oi', OrderItem.unmarshalJSON oi₀ data = .err oi' →
        ∃ p, oi'.Parent = some p ∧ p.«Type» = v.«Type») := by
  obtain ⟨raw, hraw⟩ := rawObjectDecode_of_scalar data v hscalar
  rw [orderItem_unmarshalJSON_eq_arm oi₀ data v raw hscalar hraw]
  rcases htype with ht | ht | ht <;> rw [ht]
  · rw [if_pos rfl]
    exact couponShippingArm_cases _ raw OrderItemParentTypeCoupon rfl
  · rw [if_neg (by decide), if_pos rfl]
    exact couponShippingArm_cases _ raw OrderItemParentTypeShipping rfl
  · rw [if_neg (by decide), if_neg (by decide), if_pos rfl]
    exact skuArm_cases _ raw rfl

/-- C2 witness: the coupon payload `{"type": "coupon", "parent": "coup_1"}`
satisfies the hypotheses, and the conclusion holds there. -/
theorem order_item_parent_tag_set_iff_inner_decode_fails_witness :
    (∀ oi', OrderItem.unmarshalJSON {} couponItemJson = .ok oi' →
        ∃ p, oi'.Parent = some p ∧ p.«Type» = "") ∧
    (∀ oi', OrderItem.unmarshalJSON {} couponItemJson = .err oi' →
        ∃ p, oi'.Parent = some p ∧
          p.«Type» = (({ «Type» := OrderItemTypeCoupon } : OrderItem)).«Type») :=
  order_item_parent_tag_set_iff_inner_decode_fails couponItemJson {}
    { «Type» := OrderItemTypeCoupon } rfl (Or.inl rfl)

/-- C3 amended. For every payload that passes steps 1 and 2 with an item
`Type` of `coupon`, `shipping` or `sku` and a present, non-null `parent`
fragment, a failing shape-specific decode of that fragment (step 3) makes
`OrderItem.UnmarshalJSON` return an error: `return err` surfaces it. -/
theorem order_item_parent_decode_error_propagates
    (data : Json) (oi₀ v : OrderItem) (raw : List (String × Option Json)) (frag : Json)
    (hscalar : orderItemScalarDecode data = some v)
    (hraw : rawObjectDecode data = some raw)
    (htype : v.«Type» = OrderItemTypeCoupon ∨ v.«Type» = OrderItemTypeShipping ∨
      v.«Type» = OrderItemTypeSKU)
    (hfrag : rawLookup raw "parent" = some (some frag))
    (herr : shapeErr v.«Type» frag = true) :
    ∃ oi', OrderItem.unmarshalJSON oi₀ data = .err oi' := by
  rw [orderItem_unmarshalJSON_eq_arm oi₀ data v raw hscalar hraw]
  rcases htype with ht | ht | ht <;> rw [ht] at herr ⊢
  · rw [if_pos rfl]
    rw [shapeErr, if_neg (by decide)] at herr
    unfold couponShippingArm
    rw [hfrag]
    rcases hu : unmarshalString frag "" with ⟨id, e⟩
    have he : e = true := by simpa [hu] using herr
    subst he
    simp [Option.getD_some, hu]
  · rw [if_neg (by decide), if_pos rfl]
    rw [shapeErr, if_neg (by decide)] at herr
    unfold couponShippingArm
    rw [hfrag]
    rcases hu : unmarshalString frag "" with ⟨id, e⟩
    have he : e = true := by simpa [hu] using herr
    subst he
    simp [Option.getD_some, hu]
  · rw [if_neg (by decide), if_neg (by decide), if_pos rfl]
    rw [shapeErr, if_pos rfl] at herr
    unfold skuArm
    rw [hfrag]
    rcases hu : unmarshalSKUPtr frag none with ⟨sk, e⟩
    have he : e = true := by simpa [hu] using herr
    subst he
    obtain ⟨s, hs⟩ := unmarshalSKUPtr_some_of_err frag none (by rw [hu])
    rw [hu] at hs
    simp only at hs
    subst hs
    simp [Option.getD_some, hu]

/-- C3 amended, witness: for `{"type": "coupon", "parent": 3}` all the
hypotheses hold and the decode returns an error. -/
theorem order_item_parent_decode_error_propagates_witness :
    ∃ oi', OrderItem.unmarshalJSON {} couponBadParentJson = .err oi' :=
  order_item_parent_decode_error_propagates couponBadParentJson {}
    { «Type» := OrderItemTypeCoupon }
    [("type", some (.str "coupon")), ("parent", some (.num 3))] (.num 3)
    rfl rfl (Or.inl rfl) rfl rfl

/-- The coupon/shipping arm never reaches the `oi.Parent.SKU.ID`
dereference. -/
theorem couponShippingArm_not_nilSKU (oi : OrderItem)
    (raw : List (String × Option Json)) (tag : OrderItemParentType) :
    isNilSKUPanic (couponShippingArm oi raw tag) = false := by
  unfold couponShippingArm
  cases hL : rawLookup raw "parent" with
  | none => rfl
  | some o =>
      cases o with
      | none => rfl
      | some frag =>
          rcases hu : unmarshalString frag (oi.Parent.getD {}).ID with ⟨id, e⟩
          simp only [hu]
          cases e <;> rfl

/-- The sku arm never panics at `oi.Parent.SKU.ID`: whenever the `**SKU`
unmarshal fails, it has already allocated the pointer. -/
theorem skuArm_not_nilSKU (oi : OrderItem) (raw : List (String × Option Json)) :
    isNilSKUPanic (skuArm oi raw) = false := by
  unfold skuArm
  cases hL : rawLookup raw "parent" with
  | none => rfl
  | some o =>
      cases o with
      | none => rfl
      | some frag =>
          rcases hu : unmarshalSKUPtr frag (oi.Parent.getD {}).SKU with ⟨sk, e⟩
          simp only [hu]
          cases e
          · rfl
          · obtain ⟨s, hs⟩ := unmarshalSKUPtr_some_of_err frag _ (by rw [hu])
            rw [hu] at hs
            simp only at hs
            subst hs
            rfl

/-- Across all inputs, `OrderItem.UnmarshalJSON` never yields the
`oi.Parent.SKU.ID` nil-dereference panic. -/
theorem unmarshalJSON_not_nilSKU (oi₀ : OrderItem) (data : Json) :
    isNilSKUPanic (OrderItem.unmarshalJSON oi₀ data) = false := by
  unfold OrderItem.unmarshalJSON
  cases hs : orderItemScalarDecode data with
  | none => rfl
  | some v =>
      cases hr : rawObjectDecode data with
      | none => rfl
      | some raw =>
          simp only
          split_ifs
          · exact couponShippingArm_not_nilSKU _ raw OrderItemParentTypeCoupon
          · exact couponShippingArm_not_nilSKU _ raw OrderItemParentTypeShipping
          · exact skuArm_not_nilSKU _ raw
          · rfl

/-- The situation claim C10 asserts to be reachable: some payload (and
receiver) makes `OrderItem.UnmarshalJSON` panic at the
`oi.Parent.SKU.ID` dereference of the sku arm's error path. -/
def skuNilDereferenceReachable : Prop :=
  ∃ (oi₀ : OrderItem) (data : Json),
    OrderItem.unmarshalJSON oi₀ data = .panic .nilSKU

/-- C10 counterexample. No input at all makes `OrderItem.UnmarshalJSON`
panic at the `oi.Parent.SKU.ID` dereference: a failing decode of the
`parent` fragment into `**SKU` has always allocated `Parent.SKU` first
(only a `null` fragment stores nil, and that decode reports no error),
so the error path reads the `ID` of an allocated zero `SKU`. -/
theorem order_item_never_panics_on_nil_sku : skuNilDereferenceReachable ↔ False := by
  simp only [iff_false]
  rintro ⟨oi₀, data, h⟩
  have h2 := unmarshalJSON_not_nilSKU oi₀ data
  rw [h] at h2
  exact absurd h2 (by decide)

/-- C10 amended. On the sku error path the failing `parent` decode has
allocated `Parent.SKU`, so no nil dereference happens: the item decode
returns the decode error with `Parent.SKU` set to the allocated `SKU`,
`Parent.ID` copied from it (the empty string unless an `id` member was
decoded before the failure), and `Parent.Type = sku`. -/
theorem order_item_sku_error_path_allocates
    (data : Json) (oi₀ v : OrderItem) (raw : List (String × Option Json)) (frag : Json)
    (hscalar : orderItemScalarDecode data = some v)
    (hraw : rawObjectDecode data = some raw)
    (htype : v.«Type» = OrderItemTypeSKU)
    (hfrag : rawLookup raw "parent" = some (some frag))
    (herr : (unmarshalSKUPtr frag none).2 = true) :
    ∃ s, unmarshalSKUPtr frag none = (some s, true) ∧
      OrderItem.unmarshalJSON oi₀ data =
        .err { v with Parent := some { ID := s.ID, SKU := some s, «Type» := OrderItemParentTypeSKU } } := by
  rw [orderItem_unmarshalJSON_eq_arm oi₀ data v raw hscalar hraw, htype]
  rw [if_neg (by decide), if_neg (by decide), if_pos rfl]
  unfold skuArm
  rw [hfrag]
  obtain ⟨s, hs⟩ := unmarshalSKUPtr_some_of_err frag none herr
  rcases hu : unmarshalSKUPtr frag none with ⟨sk, e⟩
  have he : e = true := by simpa [hu] using herr
  subst he
  rw [hu] at hs
  simp only at hs
  subst hs
  refine ⟨s, rfl, ?_⟩
  simp [Option.getD_some, hu]

/-- C10 amended, witness: `{"type": "sku", "parent": "sku_1"}` fails the
SKU-object decode, and the decode returns an error carrying the allocated
zero `SKU` — no panic. -/
theorem order_item_sku_error_path_allocates_witness :
    ∃ s, unmarshalSKUPtr (.str "sku_1") none = (some s, true) ∧
      OrderItem.unmarshalJSON {} skuStringParentJson =
        .err { «Type» := OrderItemTypeSKU,
               Parent := some { ID := SKU.ID s, SKU := some s, «Type» := OrderItemParentTypeSKU } } := by
  have h := order_item_sku_error_path_allocates skuStringParentJson {}
    { «Type» := OrderItemTypeSKU }
    [("type", some (.str "sku")), ("parent", some (.str "sku_1"))] (.str "sku_1")
    rfl rfl rfl rfl rfl
  exact h

/-- Decoding one member touches `ID` exactly when the member is named
`id`, and then writes what a string unmarshal into `ID` yields. -/
theorem orderSetField_ID (v : Order) (bad : Bool) (k : String) (val : Json)
    (v' : Order) (bad' : Bool) (h : orderSetField v bad k val = .cont v' bad') :
    v'.ID = if k = "id" then (unmarshalString val v.ID).1 else v.ID := by
  unfold orderSetField at h
  by_cases hk1 : k = "amount"
  · rw [if_pos hk1] at h
    injection h with hv hb
    subst hv
    rw [hk1, if_neg (by decide)]
  rw [if_neg hk1] at h
  by_cases hk2 : k = "amount_returned"
  · rw [if_pos hk2] at h
    injection h with hv hb
    subst hv
    rw [hk2, if_neg (by decide)]
  rw [if_neg hk2] at h
  by_cases hk3 : k = "application"
  · rw [if_pos hk3] at h
    injection h with hv hb
    subst hv
    rw [hk3, if_neg (by decide)]
  rw [if_neg hk3] at h
  by_cases hk4 : k = "application_fee"
  · rw [if_pos hk4] at h
    injection h with hv hb
    subst hv
    rw [hk4, if_neg (by decide)]
  rw [if_neg hk4] at h
  by_cases hk5 : k = "charge"
  · rw [if_pos hk5] at h
    by_cases hc5 : (unmarshalChargePtr val v.Charge).2 = true
    · rw [if_pos hc5] at h
      cases h
    · rw [if_neg hc5] at h
      injection h with hv hb
      subst hv
      rw [hk5, if_neg (by decide)]
  rw [if_neg hk5] at h
  by_cases hk6 : k = "created"
  · rw [if_pos hk6] at h
    injection h with hv hb
    subst hv
    rw [hk6, if_neg (by decide)]
  rw [if_neg hk6] at h
  by_cases hk7 : k = "currency"
  · rw [if_pos hk7] at h
    injection h with hv hb
    subst hv
    rw [hk7, if_neg (by decide)]
  rw [if_neg hk7] at h
  by_cases hk8 : k = "customer"
  · rw [if_pos hk8] at h
    by_cases hc8 : (unmarshalCustomer val v.Customer).2 = true
    · rw [if_pos hc8] at h
      cases h
    · rw [if_neg hc8] at h
      injection h with hv hb
      subst hv
      rw [hk8, if_neg (by decide)]
  rw [if_neg hk8] at h
  by_cases hk9 : k = "email"
  · rw [if_pos hk9] at h
    injection h with hv hb
    subst hv
    rw [hk9, if_neg (by decide)]
  rw [if_neg hk9] at h
  by_cases hk10 : k = "id"
  · rw [if_pos hk10] at h
    injection h with hv hb
    subst hv
    rw [hk10, if_pos rfl]
  rw [if_neg hk10] at h
  by_cases hk11 : k = "items"
  · rw [if_pos hk11] at h
    cases val <;>
      try (injection h with hv hb; subst hv; rw [hk11, if_neg (by decide)])
    rename_i xs
    simp only at h
    cases hd : decodeItems xs <;> rw [hd] at h
    · injection h with hv hb
      subst hv
      rw [hk11, if_neg (by decide)]
    · cases h
    · cases h
  rw [if_neg hk11] at h
  by_cases hk12 : k = "livemode"
  · rw [if_pos hk12] at h
    injection h with hv hb
    subst hv
    rw [hk12, if_neg (by decide)]
  rw [if_neg hk12] at h
  by_cases hk13 : k = "metadata"
  · rw [if_pos hk13] at h
    injection h with hv hb
    subst hv
    rw [hk13, if_neg (by decide)]
  rw [if_neg hk13] at h
  by_cases hk14 : k = "returns"
  · rw [if_pos hk14] at h
    injection h with hv hb
    subst hv
    rw [hk14, if_neg (by decide)]
  rw [if_neg hk14] at h
  by_cases hk15 : k = "selected_shipping_method"
  · rw [if_pos hk15] at h
    injection h with hv hb
    subst hv
    rw [hk15, if_neg (by decide)]
  rw [if_neg hk15] at h
  by_cases hk16 : k = "shipping"
  · rw [if_pos hk16] at h
    injection h with hv hb
    subst hv
    rw [hk16, if_neg (by decide)]
  rw [if_neg hk16] at h
  by_cases hk17 : k = "shipping_methods"
  · rw [if_pos hk17] at h
    cases val <;> (injection h with hv hb; subst hv; rw [hk17, if_neg (by decide)])
  rw [if_neg hk17] at h
  by_cases hk18 : k = "status"
  · rw [if_pos hk18] at h
    injection h with hv hb
    subst hv
    rw [hk18, if_neg (by decide)]
  rw [if_neg hk18] at h
  by_cases hk19 : k = "status_transitions"
  · rw [if_pos hk19] at h
    injection h with hv hb
    subst hv
    rw [hk19, if_neg (by decide)]
  rw [if_neg hk19] at h
  by_cases hk20 : k = "updated"
  · rw [if_pos hk20] at h
    injection h with hv hb
    subst hv
    rw [hk20, if_neg (by decide)]
  rw [if_neg hk20] at h
  injection h with hv hb
  subst hv
  rw [if_neg hk10]

/-- Value of `lastIdUpd` on the empty member list. -/
theorem lastIdUpd_nil : lastIdUpd [] = none := rfl

/-- One-step unfolding of `lastIdUpd`. -/
theorem lastIdUpd_cons (k : String) (val : Json) (rest : List (String × Json)) :
    lastIdUpd ((k, val) :: rest) =
      (match lastIdUpd rest with
       | some s => some s
       | none =>
           if k = "id" then
             match val with
             | .str s => some s
             | _ => none
           else none) := rfl

/-- When `orderFields` reaches `ok` it has decoded every member; the final
`ID` is the last `id` string member, or the starting `ID` if none. -/
theorem orderFields_ID (fields : List (String × Json)) :
    ∀ (v : Order) (bad : Bool) (o' : Order), orderFields v bad fields = .ok o' →
      o'.ID = (lastIdUpd fields).getD v.ID := by
  induction fields with
  | nil =>
      intro v bad o' h
      unfold orderFields at h
      rw [lastIdUpd_nil]
      cases bad <;> simp_all
  | cons kv rest ih =>
      intro v bad o' h
      obtain ⟨k, val⟩ := kv
      unfold orderFields at h
      cases hsf : orderSetField v bad k val with
      | cont v2 bad2 =>
          rw [hsf] at h
          have hID := orderSetField_ID v bad k val v2 bad2 hsf
          have hrest := ih v2 bad2 o' h
          rw [lastIdUpd_cons]
          cases hR : lastIdUpd rest with
          | some s => simp_all
          | none =>
              simp only [hR, Option.getD_none] at hrest
              rw [hrest, hID]
              by_cases hk : k = "id"
              · subst hk
                cases val <;> simp [unmarshalString]
              · simp [hk]
      | abort => rw [hsf] at h; cases h
      | oops s => rw [hsf] at h; cases h

/-- C7 amended. After every successful `Order.UnmarshalJSON` on a zero
receiver, `ID` equals the identifier the payload carries: the string
itself for a bare reference, the last `id` string member for an object
payload — and hence the empty string when the object has no `id`. -/
theorem order_id_matches_payload (data : Json) (o' : Order)
    (h : Order.unmarshalJSON {} data = .ok o') :
    o'.ID = payloadId data := by
  cases data with
  | str s =>
      unfold Order.unmarshalJSON ParseID at h
      simp only at h
      injection h with h
      subst h
      rfl
  | null =>
      unfold Order.unmarshalJSON ParseID orderStructDecode at h
      simp only at h
      injection h with h
      subst h
      rfl
  | num n =>
      unfold Order.unmarshalJSON ParseID orderStructDecode at h
      simp only at h
      cases h
  | bool b =>
      unfold Order.unmarshalJSON ParseID orderStructDecode at h
      simp only at h
      cases h
  | arr xs =>
      unfold Order.unmarshalJSON ParseID orderStructDecode at h
      simp only at h
      cases h
  | obj fields =>
      unfold Order.unmarshalJSON ParseID orderStructDecode at h
      simp only at h
      cases ho : orderFields {} false fields <;> rw [ho] at h
      · injection h with h
        subst h
        rw [orderFields_ID fields {} false _ ho]
        rfl
      · cases h
      · cases h

/-- C7 amended, witness: the object `{"id": "order_1", "amount": 9}`
decodes successfully and its `ID` is the payload's `id`. -/
theorem order_id_matches_payload_witness :
    ({ ID := "order_1", Amount := 9 : Order }).ID =
      payloadId (.obj [("id", .str "order_1"), ("amount", .num 9)]) :=
  order_id_matches_payload (.obj [("id", .str "order_1"), ("amount", .num 9)])
    { ID := "order_1", Amount := 9 } rfl

/-- C8 amended. Error propagation for malformed payloads: if a payload is
not a bare string and the order struct decode rejects it,
`Order.UnmarshalJSON` returns the error; if the scalar pass (step 1) of
`OrderItem.UnmarshalJSON` rejects a payload, the item decode returns the
error; and a payload the raw-fragment pass (step 2) would reject also
makes the item decode error. (JSON `null` satisfies none of these
hypotheses: both struct decodes accept it as a no-op.) -/
theorem order_malformed_payload_errors :
    (∀ (data : Json) (o₀ v : Order), ParseID data = none →
        orderStructDecode data = .err v → Order.unmarshalJSON o₀ data = .err o₀) ∧
    (∀ (data : Json) (oi₀ : OrderItem), orderItemScalarDecode data = none →
        OrderItem.unmarshalJSON oi₀ data = .err oi₀) ∧
    (∀ (data : Json) (oi₀ : OrderItem), rawObjectDecode data = none →
        ∃ oi', OrderItem.unmarshalJSON oi₀ data = .err oi') := by
  refine ⟨?_, ?_, ?_⟩
  · intro data o₀ v h1 h2
    unfold Order.unmarshalJSON
    simp only [h1, h2]
  · intro data oi₀ h
    unfold OrderItem.unmarshalJSON
    simp only [h]
  · intro data oi₀ h
    cases data <;> simp_all [rawObjectDecode, OrderItem.unmarshalJSON, orderItemScalarDecode]

/-- C8 amended, witness: the payload `7` is neither a bare string nor an
object; all three propagation statements apply to it. -/
theorem order_malformed_payload_errors_witness :
    Order.unmarshalJSON {} (.num 7) = .err {} ∧
    OrderItem.unmarshalJSON {} (.num 7) = .err {} ∧
    ∃ oi', OrderItem.unmarshalJSON {} (.num 7) = .err oi' :=
  ⟨order_malformed_payload_errors.1 (.num 7) {} {} rfl rfl,
   order_malformed_payload_errors.2.1 (.num 7) {} rfl,
   order_malformed_payload_errors.2.2 (.num 7) {} rfl⟩
